import Mathlib

/-!
Verification of the mcp-postgres-server repository (src/index.ts).

The TypeScript source is shallowly embedded: strings are Lean `String`s,
the loosely-typed JSON argument values are `ArgVal`, the pg driver and the
process environment are oracles passed as explicit parameters, and every
handler returns its protocol result together with the list of database
operations (connect attempts / issued statements) it performed.
-/

/-! ## Models of the JavaScript string primitives used by the source -/

/-- Models JS `String.prototype.trim()`: drops whitespace from both ends. -/
def jsTrim (s : String) : String :=
  ⟨((s.data.dropWhile Char.isWhitespace).reverse.dropWhile Char.isWhitespace).reverse⟩

/-- Models JS `String.prototype.toUpperCase()` (ASCII case fold, which is all
the source compares against). -/
def jsToUpperCase (s : String) : String :=
  ⟨s.data.map Char.toUpper⟩

/-- Models JS `String.prototype.startsWith(p)`. -/
def jsStartsWith (s p : String) : Bool :=
  p.data.isPrefixOf s.data

/-- Models JS `String.prototype.includes(c)` for a single character. -/
def jsIncludesChar (s : String) (c : Char) : Bool :=
  s.data.contains c

/-- Models JS `s.split(' ')[0]`: the text before the first space
(the whole string when it has no space; `""` stays `""`). -/
def splitSpaceHead (s : String) : String :=
  ⟨s.data.takeWhile (fun c => c != ' ')⟩

/-! ## convertToNamedParams (src/index.ts lines 36-39)

`query.replace(/\?/g, () => `$n`)` with a counter starting at 0 and
pre-incremented at each match: the n-th `?` (from 1) becomes `$n`. -/

/-- Character-list worker for `convertToNamedParams`: `i` is the value of
`paramIndex` before the next match, exactly as in the source. -/
def convertAux : List Char → Nat → List Char
  | [], _ => []
  | c :: cs, i =>
    if c = '?' then ('$' :: (Nat.repr (i + 1)).data) ++ convertAux cs (i + 1)
    else c :: convertAux cs i

/-- Embeds `convertToNamedParams` from src/index.ts. -/
def convertToNamedParams (query : String) : String :=
  ⟨convertAux query.data 0⟩

/-- Written from the spec sentence, not the source: split the character list
at every `'?'`, keeping the (possibly empty) `?`-free segments. -/
def specSplitOnQ : List Char → List (List Char)
  | [] => [[]]
  | c :: cs =>
    if c = '?' then [] :: specSplitOnQ cs
    else
      match specSplitOnQ cs with
      | [] => [[c]]
      | p :: ps => (c :: p) :: ps

/-- Written from the spec sentence, not the source: rejoin the segments,
placing `$n` at the n-th boundary (n counted from `k + 1`); the boundaries
are exactly the positions of the removed `?` characters. -/
def specNumberJoin : List (List Char) → Nat → List Char
  | [], _ => []
  | [p], _ => p
  | p :: ps, k => p ++ ('$' :: (Nat.repr (k + 1)).data) ++ specNumberJoin ps (k + 1)

/-! ## Data model: protocol values, errors, driver oracle -/

/-- A loosely-typed JSON argument value, as carried by the `arguments`
mapping of a tool-invocation request (TypeScript `any`). -/
inductive ArgVal where
  | vstr (s : String)
  | vnum (n : Int)
  | vbool (b : Bool)
  | vnull
  | varr (elems : List ArgVal)
  | vobj (fields : List (String × ArgVal))

/-- Models JS `Array.isArray`. -/
def ArgVal.isArrayVal : ArgVal → Bool
  | .varr _ => true
  | _ => false

/-- A scalar SQL result cell (the driver returns rows of such cells; the
tool schemas restrict parameters to string/number/boolean/null). -/
inductive Scalar where
  | snull
  | sbool (b : Bool)
  | snum (n : Int)
  | sstr (s : String)
deriving DecidableEq

/-- A result row: an object of named scalar cells, in column order. -/
def Row := List (String × Scalar)
deriving DecidableEq

/-- The result shape returned by `pg` `client.query`: rows, an optional
`rowCount` (null for non-DML commands), and the command tag. -/
structure PgResult where
  rows : List Row
  rowCount : Option Int
  command : String
deriving DecidableEq

/-- The database driver as an oracle: running a parameterized statement
either yields a `PgResult` or fails with the driver's error message. -/
structure Db where
  runQuery : String → List ArgVal → Except String PgResult

/-- The database-facing operations a call performs, in order: connect
attempts by the connection manager and SQL statements issued to the
connection. -/
inductive DbOp where
  | connectAttempt (url : String)
  | queryIssued (sql : String) (params : List ArgVal)

/-- Error codes of the MCP `McpError` values the source constructs. -/
inductive ErrCode where
  | InvalidRequest
  | InvalidParams
  | InternalError
  | MethodNotFound
deriving DecidableEq

/-- Models `McpError` (code plus human-readable message). -/
structure McpError where
  code : ErrCode
  message : String
deriving DecidableEq

/-- A successful tool response: the `content` list of text blocks. -/
structure ToolResponse where
  content : List String
deriving DecidableEq

/-- The `arguments` object of a tool call: each field either absent or a
loosely-typed value (the handlers only read `sql`, `params`, `table`). -/
structure ArgsObj where
  sql : Option ArgVal := none
  params : Option ArgVal := none
  table : Option ArgVal := none

/-- Models `!args || typeof args.sql !== 'string'` (line 278/314): yields
the sql text exactly when `args` is present and its `sql` field is a
string. -/
def argsSqlString : Option ArgsObj → Option String
  | none => none
  | some a =>
    match a.sql with
    | some (.vstr s) => some s
    | _ => none

/-- Models `!args || typeof args.table !== 'string'` (line 386). -/
def argsTableString : Option ArgsObj → Option String
  | none => none
  | some a =>
    match a.table with
    | some (.vstr s) => some s
    | _ => none

/-- Models `Array.isArray(args.params) ? args.params : []`
(lines 292 and 334). -/
def argsParamsList : Option ArgsObj → List ArgVal
  | none => []
  | some a =>
    match a.params with
    | some (.varr xs) => xs
    | _ => []

/-! ## Model of `JSON.stringify(·, null, 2)` for the shapes the source
serializes (an array of flat row objects, or one flat object). -/

/-- Escapes one character the way `JSON.stringify` does for the common
cases (quote, backslash, the usual control characters; other control
characters are not modelled, no serialized value here contains them). -/
def jsonEscapeChar (c : Char) : List Char :=
  if c = '"' then ['\\', '"']
  else if c = '\\' then ['\\', '\\']
  else if c = '\n' then ['\\', 'n']
  else if c = '\t' then ['\\', 't']
  else if c = '\r' then ['\\', 'r']
  else [c]

/-- JSON string body escaping. -/
def jsonEscape (s : String) : String :=
  ⟨s.data.flatMap jsonEscapeChar⟩

/-- A run of `n` spaces, for the 2-space indentation of
`JSON.stringify(·, null, 2)`. -/
def indentSp (n : Nat) : String :=
  ⟨List.replicate n ' '⟩

/-- Serializes a scalar JSON value. -/
def stringifyScalar : Scalar → String
  | .snull => "null"
  | .sbool true => "true"
  | .sbool false => "false"
  | .snum n => toString n
  | .sstr s => "\"" ++ jsonEscape s ++ "\""

/-- Serializes one `"key": value` member at indentation `d`. -/
def stringifyField (d : Nat) (f : String × Scalar) : String :=
  indentSp d ++ "\"" ++ jsonEscape f.1 ++ "\": " ++ stringifyScalar f.2

/-- Serializes a flat object whose opening brace sits at indentation `d`
(members at `d + 2`), exactly as `JSON.stringify(·, null, 2)` lays it
out. -/
def stringifyObj (d : Nat) : List (String × Scalar) → String
  | [] => "\x7b\x7d"
  | fs =>
    "\x7b\n" ++ String.intercalate ",\n" (fs.map (stringifyField (d + 2))) ++
      "\n" ++ indentSp d ++ "\x7d"

/-- Serializes `result.rows` as `JSON.stringify(rows, null, 2)`: `[]` when
empty, otherwise one object per row indented by two spaces. -/
def stringifyRows : List Row → String
  | [] => "[]"
  | rows =>
    "[\n" ++ String.intercalate ",\n" (rows.map (fun r => indentSp 2 ++ stringifyObj 2 r)) ++
      "\n]"

/-! ## Tool handlers (src/index.ts lines 275-354, 383-462)

Each handler takes the driver oracle and the request arguments and returns
its protocol outcome together with the list of statements it issued. -/

/-- Embeds `handleQuery` (lines 275-309). -/
def handleQuery (db : Db) (args : Option ArgsObj) :
    Except McpError ToolResponse × List DbOp :=
  match argsSqlString args with
  | none => (.error ⟨.InvalidParams, "SQL query string is required in arguments"⟩, [])
  | some sqlArg =>
    if jsStartsWith (jsToUpperCase (jsTrim sqlArg)) "SELECT" = false then
      (.error ⟨.InvalidParams,
        "Only SELECT queries are allowed with the \"query\" tool. Use \"execute\" for INSERT/UPDATE/DELETE."⟩,
       [])
    else
      let sql := if jsIncludesChar sqlArg '?' then convertToNamedParams sqlArg else sqlArg
      let ps := argsParamsList args
      match db.runQuery sql ps with
      | .ok result => (.ok ⟨[stringifyRows result.rows]⟩, [.queryIssued sql ps])
      | .error e =>
        (.error ⟨.InternalError, "Query execution failed: " ++ e⟩, [.queryIssued sql ps])

/-- Embeds `handleExecute` (lines 311-354). The non-DML keyword check on
line 325 only logs a warning and is omitted. -/
def handleExecute (db : Db) (args : Option ArgsObj) :
    Except McpError ToolResponse × List DbOp :=
  match argsSqlString args with
  | none => (.error ⟨.InvalidParams, "SQL query string is required in arguments"⟩, [])
  | some sqlArg =>
    let command := splitSpaceHead (jsToUpperCase (jsTrim sqlArg))
    if command = "SELECT" then
      (.error ⟨.InvalidParams, "Use the \"query\" tool for SELECT statements."⟩, [])
    else
      let preparedSql := if jsIncludesChar sqlArg '?' then convertToNamedParams sqlArg else sqlArg
      let ps := argsParamsList args
      match db.runQuery preparedSql ps with
      | .ok result =>
        (.ok ⟨[stringifyObj 0
          [("rowCount", .snum (result.rowCount.getD 0)), ("command", .sstr result.command)]]⟩,
         [.queryIssued preparedSql ps])
      | .error e =>
        (.error ⟨.InternalError, "Execute command failed: " ++ e⟩,
         [.queryIssued preparedSql ps])

/-- The catalog statement of `handleDescribeTable` (lines 392-434),
whitespace condensed; `$1` is the table name. -/
def describeTableSql : String :=
  "SELECT c.column_name, c.data_type, c.udt_name, c.is_nullable, c.column_default, " ++
  "CASE WHEN pk.constraint_type = \x27PRIMARY KEY\x27 THEN true ELSE false END AS is_primary_key, " ++
  "c.character_maximum_length, c.numeric_precision, c.numeric_scale " ++
  "FROM information_schema.columns c " ++
  "LEFT JOIN (SELECT kcu.column_name, kcu.table_schema, kcu.table_name, tc.constraint_type " ++
  "FROM information_schema.key_column_usage kcu " ++
  "JOIN information_schema.table_constraints tc " ++
  "ON kcu.constraint_name = tc.constraint_name " ++
  "AND kcu.table_schema = tc.table_schema AND kcu.table_name = tc.table_name " ++
  "WHERE tc.constraint_type = \x27PRIMARY KEY\x27) pk " ++
  "ON c.column_name = pk.column_name AND c.table_schema = pk.table_schema " ++
  "AND c.table_name = pk.table_name " ++
  "WHERE c.table_schema = \x27public\x27 AND c.table_name = $1 " ++
  "ORDER BY c.ordinal_position;"

/-- Embeds `handleDescribeTable` (lines 383-462). -/
def handleDescribeTable (db : Db) (args : Option ArgsObj) :
    Except McpError ToolResponse × List DbOp :=
  match argsTableString args with
  | none => (.error ⟨.InvalidParams, "Table name string is required in arguments"⟩, [])
  | some t =>
    match db.runQuery describeTableSql [.vstr t] with
    | .error e =>
      (.error ⟨.InternalError, "Failed to describe table \"" ++ t ++ "\": " ++ e⟩,
       [.queryIssued describeTableSql [.vstr t]])
    | .ok result =>
      if result.rows.length = 0 then
        (.ok ⟨["Table \"public." ++ t ++ "\" not found or has no columns."]⟩,
         [.queryIssued describeTableSql [.vstr t]])
      else
        (.ok ⟨[stringifyRows result.rows]⟩, [.queryIssued describeTableSql [.vstr t]])

/-! ## Connection manager (src/index.ts lines 91-171) -/

/-- The process environment, a finite map of variables. -/
structure Env where
  vars : List (String × String)

/-- Environment lookup (`process.env.NAME`). -/
def Env.get (e : Env) (k : String) : Option String :=
  (e.vars.find? (fun p => p.1 == k)).map (fun p => p.2)

/-- Embeds `getConnectionUrlFromEnv` (lines 104-106):
`process.env.CLAUDE_POSTGRES_API_KEY || null` — JS `||` treats the empty
string as falsy, so an empty variable also yields null. -/
def getConnectionUrlFromEnv (e : Env) : Option String :=
  match e.get "CLAUDE_POSTGRES_API_KEY" with
  | some s => if s = "" then none else some s
  | none => none

/-- The mutable fields of `PostgresServer` the connection manager touches:
the cached connection URL and the optional client handle (handles are
abstract identifiers handed out by the connect oracle). -/
structure ServerState where
  connectionUrl : Option String
  client : Option Nat
deriving DecidableEq

/-- The part of `ensureConnection` after the URL is known (lines 121-170):
return at once when a client handle is held, otherwise perform one connect
attempt, caching the handle on success and clearing it on failure. -/
def ensureConnectionWithUrl (connect : String → Except String Nat) (url : String)
    (st : ServerState) : Except McpError Unit × ServerState × List DbOp :=
  let st1 : ServerState := { st with connectionUrl := some url }
  match st1.client with
  | some _ => (.ok (), st1, [])
  | none =>
    match connect url with
    | .ok h => (.ok (), { st1 with client := some h }, [.connectAttempt url])
    | .error msg =>
      (.error ⟨.InternalError, "Failed to connect to database: " ++ msg⟩,
       { st1 with client := none }, [.connectAttempt url])

/-- Embeds `ensureConnection` (lines 108-171). `connect` is the driver
oracle for `new Client(url); await client.connect()`: it either yields a
handle or fails with the driver's message. Returns the outcome, the
updated state, and the database-facing operations performed. -/
def ensureConnection (env : Env) (connect : String → Except String Nat)
    (st : ServerState) : Except McpError Unit × ServerState × List DbOp :=
  match st.connectionUrl with
  | none =>
    match getConnectionUrlFromEnv env with
    | none =>
      (.error ⟨.InvalidRequest,
        "Database connection URL not configured. Set the CLAUDE_POSTGRES_API_KEY environment variable."⟩,
       st, [])
    | some url => ensureConnectionWithUrl connect url st
  | some url => ensureConnectionWithUrl connect url st

/-! ## Cleanup (src/index.ts lines 91-101) -/

/-- The shutdown-time oracles: `client.end()` per handle, and
`server.close()`. -/
structure CleanupEnv where
  endClient : Nat → Except String Unit
  closeServer : Except String Unit

/-- The teardown calls `cleanup` makes, in order. -/
inductive CleanupOp where
  | endCalled (h : Nat)
  | serverClosed
deriving DecidableEq

/-- Embeds `cleanup` (lines 91-101): when a client is held, `await
client.end()` then clear the handle, then `await this.server.close()`.
There is no catch inside `cleanup`, so a failing `end()` (or `close()`)
propagates to the caller, and a failing `end()` leaves the handle set. -/
def cleanup (env : CleanupEnv) (st : ServerState) :
    Except String Unit × ServerState × List CleanupOp :=
  match st.client with
  | some h =>
    match env.endClient h with
    | .error e => (.error e, st, [.endCalled h])
    | .ok _ =>
      let st1 : ServerState := { st with client := none }
      match env.closeServer with
      | .error e => (.error e, st1, [.endCalled h, .serverClosed])
      | .ok _ => (.ok (), st1, [.endCalled h, .serverClosed])
  | none =>
    match env.closeServer with
    | .error e => (.error e, st, [.serverClosed])
    | .ok _ => (.ok (), st, [.serverClosed])

/-! ## Concrete oracles used to instantiate the theorems -/

/-- A driver oracle that fails every statement. -/
def dbNever : Db := ⟨fun _ _ => .error "no database"⟩

/-- A driver oracle that answers every statement with zero rows and the
command tag `CMD`. -/
def dbOkEmpty : Db := ⟨fun _ _ => .ok ⟨[], some 0, "CMD"⟩⟩

/-- A driver oracle that answers every statement with a one-row catalog
result. -/
def dbOneRow : Db :=
  ⟨fun _ _ => .ok ⟨[[("column_name", .sstr "id"), ("data_type", .sstr "integer")]], some 1, "SELECT"⟩⟩

/-- A driver oracle reporting a null `rowCount` (as for `CREATE TABLE`). -/
def dbNullRowCount : Db := ⟨fun _ _ => .ok ⟨[], none, "CREATE"⟩⟩

/-- A connect oracle that always succeeds with handle 7. -/
def connectOk : String → Except String Nat := fun _ => .ok 7

/-- A connect oracle that always fails. -/
def connectFail : String → Except String Nat := fun _ => .error "connection refused"

/-- An empty process environment. -/
def envEmpty : Env := ⟨[]⟩

/-- An environment carrying the five discrete PostgreSQL fields of the
README but no pre-assembled connection string. -/
def discreteEnv : Env :=
  ⟨[("PG_HOST", "localhost"), ("PG_PORT", "5432"), ("PG_USER", "u"),
    ("PG_PASSWORD", "p"), ("PG_DATABASE", "d")]⟩

/-- Shutdown oracles for which every close succeeds. -/
def cleanupOkEnv : CleanupEnv := ⟨fun _ => .ok (), .ok ()⟩

/-- Shutdown oracles for which closing the client fails. -/
def cleanupFailEnv : CleanupEnv := ⟨fun _ => .error "end failed: connection broken", .ok ()⟩

/-! # Theorems -/

/-! ## C1: placeholder rewrite -/

theorem specSplitOnQ_ne_nil (cs : List Char) : specSplitOnQ cs ≠ [] := by
  induction cs with
  | nil => simp [specSplitOnQ]
  | cons c cs ih =>
    by_cases h : c = '?'
    · simp [specSplitOnQ, h]
    · simp only [specSplitOnQ, if_neg h]
      cases hs : specSplitOnQ cs with
      | nil => simp
      | cons p ps => simp

theorem convertAux_eq_specNumberJoin (cs : List Char) :
    ∀ k, convertAux cs k = specNumberJoin (specSplitOnQ cs) k := by
  induction cs with
  | nil => intro k; rfl
  | cons c cs ih =>
    intro k
    by_cases h : c = '?'
    · subst h
      have h1 : specSplitOnQ ('?' :: cs) = [] :: specSplitOnQ cs := by
        simp [specSplitOnQ]
      have h2 : convertAux ('?' :: cs) k =
          ('$' :: (Nat.repr (k + 1)).data) ++ convertAux cs (k + 1) := by
        simp [convertAux]
      rw [h1, h2, ih (k + 1)]
      cases hs : specSplitOnQ cs with
      | nil => exact absurd hs (specSplitOnQ_ne_nil cs)
      | cons p ps => simp [specNumberJoin]
    · have h1 : convertAux (c :: cs) k = c :: convertAux cs k := by
        simp [convertAux, h]
      rw [h1, ih k]
      cases hs : specSplitOnQ cs with
      | nil => exact absurd hs (specSplitOnQ_ne_nil cs)
      | cons p ps =>
        have h2 : specSplitOnQ (c :: cs) = (c :: p) :: ps := by
          simp [specSplitOnQ, h, hs]
        rw [h2]
        cases ps with
        | nil => simp [specNumberJoin]
        | cons q qs => simp [specNumberJoin]

theorem specSplitOnQ_no_q (cs : List Char) (h : '?' ∉ cs) :
    specSplitOnQ cs = [cs] := by
  induction cs with
  | nil => rfl
  | cons c cs ih =>
    have hc : c ≠ '?' := fun hh => h (hh ▸ List.mem_cons_self c cs)
    have hcs : '?' ∉ cs := fun hh => h (List.mem_cons_of_mem c hh)
    simp only [specSplitOnQ, if_neg hc, ih hcs]

/-- C1: the placeholder rewrite replaces the n-th `?` (counting from 1, left
to right) with `$n` and leaves every other character unchanged — stated as
equality with the spec-side split-at-`?`-and-number-the-boundaries
reference — and returns any string containing no `?` unchanged. -/
theorem convertToNamedParams_correct :
    (∀ q : String, convertToNamedParams q = ⟨specNumberJoin (specSplitOnQ q.data) 0⟩) ∧
    (∀ q : String, '?' ∉ q.data → convertToNamedParams q = q) := by
  constructor
  · intro q
    simp only [convertToNamedParams, convertAux_eq_specNumberJoin]
  · intro q h
    simp only [convertToNamedParams, convertAux_eq_specNumberJoin, specSplitOnQ_no_q q.data h,
      specNumberJoin]

/-- C1 witness: concrete evaluations — two placeholders become `$1`, `$2`;
a placeholder-free string is unchanged. -/
theorem convertToNamedParams_correct_witness :
    ('?' ∉ "SELECT 1".data ∧ convertToNamedParams "SELECT 1" = "SELECT 1") ∧
    convertToNamedParams "a = ? AND b = ?" = "a = $1 AND b = $2" := by
  refine ⟨⟨by decide, convertToNamedParams_correct.2 "SELECT 1" (by decide)⟩, by decide⟩

/-! ## C2: the query tool rejects non-SELECT statements -/

/-- C2: whenever the `sql` argument of a `query` call is a string whose
trimmed, upper-cased text does not start with `SELECT`, the handler raises
the invalid-argument (`InvalidParams`) error and issues no statement to the
database connection (the returned operation list is empty). -/
theorem handleQuery_rejects_non_select (db : Db) (args : Option ArgsObj) (s : String)
    (hs : argsSqlString args = some s)
    (hsel : jsStartsWith (jsToUpperCase (jsTrim s)) "SELECT" = false) :
    handleQuery db args =
      (.error ⟨.InvalidParams,
        "Only SELECT queries are allowed with the \"query\" tool. Use \"execute\" for INSERT/UPDATE/DELETE."⟩,
       []) := by
  unfold handleQuery
  rw [hs]
  simp [hsel]

/-- C2 witness: `query` with `DELETE FROM users` is rejected with the
invalid-argument error before anything reaches the driver. -/
theorem handleQuery_rejects_non_select_witness :
    argsSqlString (some ⟨some (.vstr "DELETE FROM users"), none, none⟩) =
      some "DELETE FROM users" ∧
    jsStartsWith (jsToUpperCase (jsTrim "DELETE FROM users")) "SELECT" = false ∧
    handleQuery dbNever (some ⟨some (.vstr "DELETE FROM users"), none, none⟩) =
      (.error ⟨.InvalidParams,
        "Only SELECT queries are allowed with the \"query\" tool. Use \"execute\" for INSERT/UPDATE/DELETE."⟩,
       []) :=
  ⟨rfl, by decide,
   handleQuery_rejects_non_select dbNever _ "DELETE FROM users" rfl (by decide)⟩

/-! ## C3: the execute tool's validation -/

/-- C3 counterexample: the claim requires an invalid-argument error for
every `sql` that is not a non-empty string, before any statement is issued;
but `sql = ""` is accepted (only `typeof !== 'string'` is checked), the
empty statement is issued to the connection, and the handler returns
success. Likewise a statement that starts with `SELECT` but whose first
space-delimited token is not exactly `SELECT` (here `"SELECT\n1"`) is not
rejected and is issued. -/
theorem handleExecute_empty_sql_counterexample :
    (handleExecute dbOkEmpty (some ⟨some (.vstr ""), none, none⟩) =
      (.ok ⟨["\x7b\n  \"rowCount\": 0,\n  \"command\": \"CMD\"\n\x7d"]⟩,
       [.queryIssued "" []])) ∧
    jsStartsWith (jsToUpperCase (jsTrim "SELECT\n1")) "SELECT" = true ∧
    (handleExecute dbOkEmpty (some ⟨some (.vstr "SELECT\n1"), none, none⟩) =
      (.ok ⟨["\x7b\n  \"rowCount\": 0,\n  \"command\": \"CMD\"\n\x7d"]⟩,
       [.queryIssued "SELECT\n1" []])) :=
  ⟨rfl, by decide, rfl⟩

/-- C3 (amended): for every `execute` call whose `sql` argument is missing
or not a string, or whose trimmed, upper-cased text has first
space-delimited token exactly `SELECT`, the handler raises an
invalid-argument error (directing the caller to the `query` tool in the
SELECT case) and issues no statement to the database connection. -/
theorem handleExecute_validation (db : Db) (args : Option ArgsObj) :
    (argsSqlString args = none →
      handleExecute db args =
        (.error ⟨.InvalidParams, "SQL query string is required in arguments"⟩, [])) ∧
    (∀ s, argsSqlString args = some s →
      splitSpaceHead (jsToUpperCase (jsTrim s)) = "SELECT" →
      handleExecute db args =
        (.error ⟨.InvalidParams, "Use the \"query\" tool for SELECT statements."⟩, [])) := by
  constructor
  · intro h
    unfold handleExecute
    rw [h]
  · intro s hs hsel
    unfold handleExecute
    rw [hs]
    simp [hsel]

/-- C3 witness: a call without `sql` and a call with a leading-`SELECT`
statement are both rejected with the corresponding invalid-argument
errors. -/
theorem handleExecute_validation_witness :
    (argsSqlString (some ⟨none, none, none⟩) = none ∧
      handleExecute dbNever (some ⟨none, none, none⟩) =
        (.error ⟨.InvalidParams, "SQL query string is required in arguments"⟩, [])) ∧
    (splitSpaceHead (jsToUpperCase (jsTrim " select * from t")) = "SELECT" ∧
      handleExecute dbNever (some ⟨some (.vstr " select * from t"), none, none⟩) =
        (.error ⟨.InvalidParams, "Use the \"query\" tool for SELECT statements."⟩, [])) :=
  ⟨⟨rfl, (handleExecute_validation dbNever _).1 rfl⟩,
   ⟨by decide,
    (handleExecute_validation dbNever _).2 " select * from t" rfl (by decide)⟩⟩

/-! ## C4: an already-held connection is reused -/

/-- C4: when a connection handle is already held (with the URL cached, as
in every reachable such state), `ensureConnection` returns successfully
with the state unchanged and performs no database-facing operation at all —
no connect attempt and no query; consequently, starting with no handle,
a successful call followed by a second call performs exactly one connect
attempt across the two calls. -/
theorem ensureConnection_reuses_connection (env : Env)
    (connect : String → Except String Nat) :
    (∀ st : ServerState, ∀ c u, st.client = some c → st.connectionUrl = some u →
      ensureConnection env connect st = (.ok (), st, [])) ∧
    (∀ st : ServerState, ∀ u h, st.client = none → st.connectionUrl = some u →
      connect u = .ok h →
      (ensureConnection env connect st).2.2 ++
        (ensureConnection env connect (ensureConnection env connect st).2.1).2.2 =
        [.connectAttempt u]) := by
  constructor
  · intro st c u hc hu
    obtain ⟨cu, cl⟩ := st
    dsimp only at hc hu
    subst hc hu
    rfl
  · intro st u h hc hu hconn
    obtain ⟨cu, cl⟩ := st
    dsimp only at hc hu
    subst hc hu
    simp [ensureConnection, ensureConnectionWithUrl, hconn]

/-- C4 witness: with a held handle the call is a no-op; from a fresh state
two successive calls connect exactly once. -/
theorem ensureConnection_reuses_connection_witness :
    ((⟨some "postgres://db", some 7⟩ : ServerState).client = some 7 ∧
      ensureConnection envEmpty connectOk ⟨some "postgres://db", some 7⟩ =
        (.ok (), ⟨some "postgres://db", some 7⟩, [])) ∧
    (connectOk "postgres://db" = .ok 7 ∧
      (ensureConnection envEmpty connectOk ⟨some "postgres://db", none⟩).2.2 ++
        (ensureConnection envEmpty connectOk
          (ensureConnection envEmpty connectOk ⟨some "postgres://db", none⟩).2.1).2.2 =
        [.connectAttempt "postgres://db"]) :=
  ⟨⟨rfl, (ensureConnection_reuses_connection envEmpty connectOk).1 _ 7 "postgres://db" rfl rfl⟩,
   ⟨rfl, (ensureConnection_reuses_connection envEmpty connectOk).2 _ "postgres://db" 7 rfl rfl rfl⟩⟩

/-! ## C5: configuration resolution -/

/-- C5 counterexample: the claim says resolution also supports the five
discrete fields (host, port, user, password, database; port defaulting to
5432); but with all five set and no pre-assembled connection string the
resolver returns absent — only the single `CLAUDE_POSTGRES_API_KEY`
connection-string variable is consulted. -/
theorem getConnectionUrlFromEnv_ignores_discrete_fields :
    discreteEnv.get "PG_HOST" = some "localhost" ∧
    discreteEnv.get "PG_PORT" = some "5432" ∧
    discreteEnv.get "PG_USER" = some "u" ∧
    discreteEnv.get "PG_PASSWORD" = some "p" ∧
    discreteEnv.get "PG_DATABASE" = some "d" ∧
    getConnectionUrlFromEnv discreteEnv = none := by
  decide

/-- C5 (amended): configuration resolution supports one shape — a single
pre-assembled connection string read from `CLAUDE_POSTGRES_API_KEY` (the
JS `||` making an empty value count as missing); when that variable is
missing or empty it returns an absent value, and it never raises (it is a
total function of the environment). -/
theorem getConnectionUrlFromEnv_single_shape (e : Env) :
    (∀ s, e.get "CLAUDE_POSTGRES_API_KEY" = some s → s ≠ "" →
      getConnectionUrlFromEnv e = some s) ∧
    (e.get "CLAUDE_POSTGRES_API_KEY" = none → getConnectionUrlFromEnv e = none) ∧
    (e.get "CLAUDE_POSTGRES_API_KEY" = some "" → getConnectionUrlFromEnv e = none) := by
  refine ⟨fun s hs hne => ?_, fun h => ?_, fun h => ?_⟩ <;>
    simp [getConnectionUrlFromEnv, *]

/-- C5 witness: a set, an absent, and an empty connection-string variable. -/
theorem getConnectionUrlFromEnv_single_shape_witness :
    ((⟨[("CLAUDE_POSTGRES_API_KEY", "postgres://u:p@h/d")]⟩ : Env).get
        "CLAUDE_POSTGRES_API_KEY" = some "postgres://u:p@h/d" ∧
      getConnectionUrlFromEnv ⟨[("CLAUDE_POSTGRES_API_KEY", "postgres://u:p@h/d")]⟩ =
        some "postgres://u:p@h/d") ∧
    (envEmpty.get "CLAUDE_POSTGRES_API_KEY" = none ∧
      getConnectionUrlFromEnv envEmpty = none) ∧
    ((⟨[("CLAUDE_POSTGRES_API_KEY", "")]⟩ : Env).get "CLAUDE_POSTGRES_API_KEY" =
        some "" ∧
      getConnectionUrlFromEnv ⟨[("CLAUDE_POSTGRES_API_KEY", "")]⟩ = none) :=
  ⟨⟨rfl, (getConnectionUrlFromEnv_single_shape _).1 "postgres://u:p@h/d" rfl (by decide)⟩,
   ⟨rfl, (getConnectionUrlFromEnv_single_shape _).2.1 rfl⟩,
   ⟨rfl, (getConnectionUrlFromEnv_single_shape _).2.2 rfl⟩⟩

/-! ## C6: a failed connect discards the handle and wraps the cause -/

/-- C6: when no handle is held and the connect attempt fails with the
driver message `e`, `ensureConnection` raises the connection error
`Failed to connect to database: e` (code `InternalError`), the resulting
state holds no handle, exactly one connect attempt was made, and the next
call performs a fresh connect attempt. -/
theorem ensureConnection_failure_discards_handle (env : Env)
    (connect : String → Except String Nat) (st : ServerState) (u e : String)
    (hc : st.client = none) (hu : st.connectionUrl = some u)
    (hf : connect u = .error e) :
    ensureConnection env connect st =
      (.error ⟨.InternalError, "Failed to connect to database: " ++ e⟩,
       ⟨some u, none⟩, [.connectAttempt u]) ∧
    (ensureConnection env connect (ensureConnection env connect st).2.1).2.2 =
      [.connectAttempt u] := by
  obtain ⟨cu, cl⟩ := st
  dsimp only at hc hu
  subst hc hu
  constructor
  · simp [ensureConnection, ensureConnectionWithUrl, hf]
  · simp [ensureConnection, ensureConnectionWithUrl, hf]

/-- C6 witness: a concrete failing connect oracle — the handle is absent
afterwards, the error wraps `connection refused`, and the second call
re-attempts. -/
theorem ensureConnection_failure_discards_handle_witness :
    ((⟨some "postgres://db", none⟩ : ServerState).client = none ∧
      connectFail "postgres://db" = .error "connection refused") ∧
    ensureConnection envEmpty connectFail ⟨some "postgres://db", none⟩ =
      (.error ⟨.InternalError, "Failed to connect to database: connection refused"⟩,
       ⟨some "postgres://db", none⟩, [.connectAttempt "postgres://db"]) ∧
    (ensureConnection envEmpty connectFail
      (ensureConnection envEmpty connectFail ⟨some "postgres://db", none⟩).2.1).2.2 =
      [.connectAttempt "postgres://db"] :=
  ⟨⟨rfl, rfl⟩,
   (ensureConnection_failure_discards_handle envEmpty connectFail
     ⟨some "postgres://db", none⟩ "postgres://db" "connection refused" rfl rfl rfl).1,
   (ensureConnection_failure_discards_handle envEmpty connectFail
     ⟨some "postgres://db", none⟩ "postgres://db" "connection refused" rfl rfl rfl).2⟩

/-! ## C7: describe_table on zero columns -/

/-- C7: when the catalog query of `describe_table` returns zero column
rows, the handler returns a successful (non-error) result whose payload is
the plain informational not-found text — which is not the serialization of
an empty structured list — and when at least one row is returned the
payload is the JSON serialization of the column-descriptor rows in the
order the driver delivered them. -/
theorem handleDescribeTable_zero_vs_some (db : Db) (args : Option ArgsObj)
    (t : String) (r : PgResult)
    (ht : argsTableString args = some t)
    (hq : db.runQuery describeTableSql [.vstr t] = .ok r) :
    (r.rows = [] →
      handleDescribeTable db args =
        (.ok ⟨["Table \"public." ++ t ++ "\" not found or has no columns."]⟩,
         [.queryIssued describeTableSql [.vstr t]]) ∧
      ("Table \"public." ++ t ++ "\" not found or has no columns.") ≠ stringifyRows []) ∧
    (r.rows ≠ [] →
      handleDescribeTable db args =
        (.ok ⟨[stringifyRows r.rows]⟩, [.queryIssued describeTableSql [.vstr t]])) := by
  constructor
  · intro hr
    constructor
    · unfold handleDescribeTable
      rw [ht]
      dsimp only
      rw [hq]
      simp [hr]
    · intro hEq
      have hlen := congrArg String.length hEq
      rw [String.length_append, String.length_append] at hlen
      have h1 : ("Table \"public." : String).length = 14 := rfl
      have h2 : ("\" not found or has no columns." : String).length = 30 := rfl
      have h3 : (stringifyRows []).length = 2 := rfl
      rw [h1, h2, h3] at hlen
      omega
  · intro hr
    unfold handleDescribeTable
    rw [ht]
    dsimp only
    rw [hq]
    have : r.rows.length ≠ 0 := by
      simpa [List.length_eq_zero] using hr
    simp [this]

/-- C7 witness: a driver returning zero rows yields the friendly text for
table `missing`; a driver returning one column row yields the serialized
descriptor array. -/
theorem handleDescribeTable_zero_vs_some_witness :
    (handleDescribeTable dbOkEmpty (some ⟨none, none, some (.vstr "missing")⟩) =
      (.ok ⟨["Table \"public.missing\" not found or has no columns."]⟩,
       [.queryIssued describeTableSql [.vstr "missing"]])) ∧
    (handleDescribeTable dbOneRow (some ⟨none, none, some (.vstr "users")⟩) =
      (.ok ⟨[stringifyRows [[("column_name", .sstr "id"), ("data_type", .sstr "integer")]]]⟩,
       [.queryIssued describeTableSql [.vstr "users"]])) :=
  ⟨((handleDescribeTable_zero_vs_some dbOkEmpty (some ⟨none, none, some (.vstr "missing")⟩)
      "missing" ⟨[], some 0, "CMD"⟩ rfl rfl).1 rfl).1,
   (handleDescribeTable_zero_vs_some dbOneRow (some ⟨none, none, some (.vstr "users")⟩)
      "users" ⟨[[("column_name", .sstr "id"), ("data_type", .sstr "integer")]], some 1, "SELECT"⟩
      rfl rfl).2 (by simp)⟩

/-! ## C8: the close operation -/

/-- C8 counterexample: the claim says close never raises past its own
caller and swallows secondary errors while closing a broken connection;
but with a failing `client.end()` the cleanup returns that very error to
its caller and the handle is still held afterwards. -/
theorem cleanup_error_propagates_counterexample :
    cleanup cleanupFailEnv ⟨some "postgres://db", some 3⟩ =
      (.error "end failed: connection broken",
       ⟨some "postgres://db", some 3⟩, [.endCalled 3]) := rfl

/-- C8 (amended): close closes the held connection when one exists and, on
a successful close, clears the handle so that a repeated call performs no
further close on the connection (it only closes the protocol server); with
no handle held no connection close is performed; but an error raised while
closing propagates to the caller of `cleanup` and leaves the handle held. -/
theorem cleanup_contract (env : CleanupEnv) (st : ServerState) :
    (∀ h, st.client = some h → env.endClient h = .ok () →
      (cleanup env st).2.1.client = none ∧
      (cleanup env st).2.2.head? = some (.endCalled h) ∧
      ∀ op ∈ (cleanup env (cleanup env st).2.1).2.2, op = CleanupOp.serverClosed) ∧
    (st.client = none → ∀ op ∈ (cleanup env st).2.2, op = CleanupOp.serverClosed) ∧
    (∀ h e, st.client = some h → env.endClient h = .error e →
      (cleanup env st).1 = .error e ∧ (cleanup env st).2.1 = st) := by
  obtain ⟨cu, cl⟩ := st
  refine ⟨fun h hc hend => ?_, fun hc => ?_, fun h e hc hend => ?_⟩
  · dsimp only at hc
    subst hc
    cases hcs : env.closeServer <;>
      simp [cleanup, hend, hcs]
  · dsimp only at hc
    subst hc
    cases hcs : env.closeServer <;>
      simp [cleanup, hcs]
  · dsimp only at hc
    subst hc
    simp [cleanup, hend]

/-- C8 witness: with a held handle and successful oracles the handle is
cleared and the repeated call touches no connection; with no handle no
close happens; with a failing `end()` the error propagates and the state
is unchanged. -/
theorem cleanup_contract_witness :
    ((⟨some "postgres://db", some 3⟩ : ServerState).client = some 3 ∧
      cleanupOkEnv.endClient 3 = .ok () ∧
      (cleanup cleanupOkEnv ⟨some "postgres://db", some 3⟩).2.1.client = none ∧
      (∀ op ∈ (cleanup cleanupOkEnv
          (cleanup cleanupOkEnv ⟨some "postgres://db", some 3⟩).2.1).2.2,
        op = CleanupOp.serverClosed)) ∧
    (cleanupFailEnv.endClient 3 = .error "end failed: connection broken" ∧
      (cleanup cleanupFailEnv ⟨some "postgres://db", some 3⟩).1 =
        .error "end failed: connection broken" ∧
      (cleanup cleanupFailEnv ⟨some "postgres://db", some 3⟩).2.1 =
        ⟨some "postgres://db", some 3⟩) :=
  ⟨⟨rfl, rfl,
    ((cleanup_contract cleanupOkEnv ⟨some "postgres://db", some 3⟩).1 3 rfl rfl).1,
    ((cleanup_contract cleanupOkEnv ⟨some "postgres://db", some 3⟩).1 3 rfl rfl).2.2⟩,
   ⟨rfl,
    ((cleanup_contract cleanupFailEnv ⟨some "postgres://db", some 3⟩).2.2 3
      "end failed: connection broken" rfl rfl).1,
    ((cleanup_contract cleanupFailEnv ⟨some "postgres://db", some 3⟩).2.2 3
      "end failed: connection broken" rfl rfl).2⟩⟩

/-! ## C9: a missing or non-array params value is silently replaced -/

/-- C9: a `params` argument that is absent or not an array changes nothing
about a `query` or `execute` call compared to leaving it out (so no
invalid-argument error ever arises from a malformed `params`); the empty
parameter list is substituted, and with a valid statement the handler
still issues it — with no parameters — to the connection. -/
theorem params_non_array_silently_empty (db : Db) (sqlv pv : ArgVal) (tv : Option ArgVal)
    (hp : pv.isArrayVal = false) :
    (handleQuery db (some ⟨some sqlv, some pv, tv⟩) =
      handleQuery db (some ⟨some sqlv, none, tv⟩)) ∧
    (handleExecute db (some ⟨some sqlv, some pv, tv⟩) =
      handleExecute db (some ⟨some sqlv, none, tv⟩)) ∧
    (argsParamsList (some ⟨some sqlv, some pv, tv⟩) = []) ∧
    (∀ s, sqlv = .vstr s → jsStartsWith (jsToUpperCase (jsTrim s)) "SELECT" = true →
      (handleQuery db (some ⟨some sqlv, some pv, tv⟩)).2 =
        [.queryIssued (if jsIncludesChar s '?' then convertToNamedParams s else s) []]) ∧
    (∀ s, sqlv = .vstr s → splitSpaceHead (jsToUpperCase (jsTrim s)) ≠ "SELECT" →
      (handleExecute db (some ⟨some sqlv, some pv, tv⟩)).2 =
        [.queryIssued (if jsIncludesChar s '?' then convertToNamedParams s else s) []]) := by
  have hps : argsParamsList (some ⟨some sqlv, some pv, tv⟩) = [] := by
    cases pv <;> simp_all [argsParamsList, ArgVal.isArrayVal]
  have hps2 : argsParamsList (some ⟨some sqlv, none, tv⟩) = [] := rfl
  refine ⟨?_, ?_, hps, ?_, ?_⟩
  · unfold handleQuery
    rw [hps, hps2]
    rfl
  · unfold handleExecute
    rw [hps, hps2]
    rfl
  · intro s hsv hsel
    subst hsv
    unfold handleQuery
    rw [hps]
    simp only [argsSqlString, hsel, Bool.true_eq_false, if_false]
    cases hq : db.runQuery (if jsIncludesChar s '?' then convertToNamedParams s else s) [] <;>
      simp [hq]
  · intro s hsv hsel
    subst hsv
    unfold handleExecute
    rw [hps]
    simp only [argsSqlString, if_neg hsel]
    cases hq : db.runQuery (if jsIncludesChar s '?' then convertToNamedParams s else s) [] <;>
      simp [hq]

/-- C9 witness: a string-valued `params` on a `query` call behaves exactly
like an absent `params`, the empty list is substituted, and the SELECT is
still issued with no parameters; the same with a number-valued `params` on
an `execute` call. -/
theorem params_non_array_silently_empty_witness :
    ((ArgVal.vstr "oops").isArrayVal = false ∧
      handleQuery dbOkEmpty (some ⟨some (.vstr "SELECT 1"), some (.vstr "oops"), none⟩) =
        handleQuery dbOkEmpty (some ⟨some (.vstr "SELECT 1"), none, none⟩) ∧
      jsStartsWith (jsToUpperCase (jsTrim "SELECT 1")) "SELECT" = true ∧
      (handleQuery dbOkEmpty (some ⟨some (.vstr "SELECT 1"), some (.vstr "oops"), none⟩)).2 =
        [.queryIssued "SELECT 1" []]) ∧
    ((ArgVal.vnum 5).isArrayVal = false ∧
      splitSpaceHead (jsToUpperCase (jsTrim "DELETE FROM t")) ≠ "SELECT" ∧
      (handleExecute dbOkEmpty (some ⟨some (.vstr "DELETE FROM t"), some (.vnum 5), none⟩)).2 =
        [.queryIssued "DELETE FROM t" []]) := by
  refine ⟨⟨rfl, ?_, by decide, ?_⟩, ⟨rfl, by decide, ?_⟩⟩
  · exact (params_non_array_silently_empty dbOkEmpty (.vstr "SELECT 1") (.vstr "oops") none
      rfl).1
  · have := (params_non_array_silently_empty dbOkEmpty (.vstr "SELECT 1") (.vstr "oops") none
      rfl).2.2.2.1 "SELECT 1" rfl (by decide)
    simpa using this
  · have := (params_non_array_silently_empty dbOkEmpty (.vstr "DELETE FROM t") (.vnum 5) none
      rfl).2.2.2.2 "DELETE FROM t" rfl (by decide)
    simpa using this

/-! ## C10: the execute success payload -/

/-- C10: on every successful `execute` call the payload is the JSON
serialization (2-space indentation) of an object whose `rowCount` field is
the driver-reported row count when one is reported and `0` when the driver
reports none, and whose `command` field is the driver's command tag. -/
theorem handleExecute_success_payload (db : Db) (args : Option ArgsObj) (s : String)
    (r : PgResult)
    (hs : argsSqlString args = some s)
    (hsel : splitSpaceHead (jsToUpperCase (jsTrim s)) ≠ "SELECT")
    (hq : db.runQuery (if jsIncludesChar s '?' then convertToNamedParams s else s)
            (argsParamsList args) = .ok r) :
    (handleExecute db args).1 =
      .ok ⟨[stringifyObj 0
        [("rowCount", .snum (match r.rowCount with | some n => n | none => 0)),
         ("command", .sstr r.command)]]⟩ := by
  unfold handleExecute
  rw [hs]
  dsimp only
  rw [if_neg hsel, hq]
  dsimp only
  cases hrc : r.rowCount <;> simp [hrc]

/-- C10 witness: a driver reporting `rowCount = 1, command = INSERT` and a
driver reporting a null row count with `command = CREATE`. -/
theorem handleExecute_success_payload_witness :
    (splitSpaceHead (jsToUpperCase (jsTrim "INSERT INTO t VALUES (?)")) ≠ "SELECT" ∧
      (handleExecute (Db.mk (fun _ _ => .ok ⟨[], some 1, "INSERT"⟩))
          (some ⟨some (.vstr "INSERT INTO t VALUES (?)"), none, none⟩)).1 =
        .ok ⟨["\x7b\n  \"rowCount\": 1,\n  \"command\": \"INSERT\"\n\x7d"]⟩) ∧
    ((handleExecute dbNullRowCount (some ⟨some (.vstr "CREATE TABLE t (a int)"), none, none⟩)).1 =
      .ok ⟨["\x7b\n  \"rowCount\": 0,\n  \"command\": \"CREATE\"\n\x7d"]⟩) := by
  refine ⟨⟨by decide, ?_⟩, ?_⟩
  · have := handleExecute_success_payload (Db.mk (fun _ _ => .ok ⟨[], some 1, "INSERT"⟩))
      (some ⟨some (.vstr "INSERT INTO t VALUES (?)"), none, none⟩)
      "INSERT INTO t VALUES (?)" ⟨[], some 1, "INSERT"⟩ rfl (by decide) rfl
    rw [this]
    rfl
  · have := handleExecute_success_payload dbNullRowCount
      (some ⟨some (.vstr "CREATE TABLE t (a int)"), none, none⟩)
      "CREATE TABLE t (a int)" ⟨[], none, "CREATE"⟩ rfl (by decide) rfl
    rw [this]
    rfl
